import Mathlib

/-!
Shallow embedding of `mediagoblin/media_types/stl/model_loader.py`.

A file object is a byte sequence plus a read position.  Python floats are
modelled as rationals (every concrete value appearing in the spec's
scenarios is exactly representable, and no inexact arithmetic is
exercised by them).  Python exceptions are modelled by the `PErr` type:
the module's own `ThreeDeeParseError` carries its message, and the
untyped built-in exceptions the code can raise (`ValueError` from
`float`, `IndexError` from tuple indexing, `struct.error` from a short
`struct.unpack` buffer, `MemoryError`) are separate constructors.
-/

set_option maxRecDepth 8000

attribute [local semireducible] Rat.mul Rat.add Rat.inv Rat.sub

/-- A Python file object: the underlying bytes and the current position. -/
structure FileOb where
  data : List Nat
  pos : Nat
  deriving DecidableEq

/-- The exceptions the module can raise.  `threeDee` is the module's own
`ThreeDeeParseError` (with its message); the others model the untyped
Python built-ins raised by library calls inside the module. -/
inductive PErr where
  | threeDee (msg : String)
  | valueError
  | indexError
  | structError
  | memoryError
  deriving DecidableEq

deriving instance DecidableEq for Except

/-- A parsed vertex tuple.  The source builds Python tuples whose length
can be shorter than 3 when a `v` line carries fewer than three tokens,
so a vertex is a list of rationals, not a fixed triple. -/
abbrev Vec := List ℚ

/-- The fields of a fully constructed `ThreeDee` model object. -/
structure ThreeDee where
  verts : List Vec
  min : List ℚ
  max : List ℚ
  average : List ℚ
  width : ℚ
  depth : ℚ
  height : ℚ
  deriving DecidableEq

/-- Decimal value of a digit-character list, most significant first. -/
def natOfDigitsAux (acc : Nat) : List Char → Nat
  | [] => acc
  | c :: cs => natOfDigitsAux (10 * acc + (c.toNat - 48)) cs

/-- Decimal value of a digit-character list. -/
def natOfDigits (cs : List Char) : Nat := natOfDigitsAux 0 cs

/-- Python's `float(s)` restricted to plain decimal literals: optional
surrounding whitespace, an optional sign, then digits with an optional
fractional part (at least one digit overall).  `none` models the
`ValueError` that `float` raises on anything else; exponent and
inf/nan forms are outside what the module's inputs exercise. -/
def pyFloat (s : String) : Option ℚ :=
  let cs := ((s.data.dropWhile Char.isWhitespace).reverse.dropWhile Char.isWhitespace).reverse
  let sb : ℚ × List Char :=
    match cs with
    | '-' :: rest => (-1, rest)
    | '+' :: rest => (1, rest)
    | _ => (1, cs)
  let ip := sb.2.takeWhile Char.isDigit
  let rest := sb.2.dropWhile Char.isDigit
  match rest with
  | [] => if ip.isEmpty then none else some (sb.1 * natOfDigits ip)
  | '.' :: fp =>
    if fp.all Char.isDigit && !(ip.isEmpty && fp.isEmpty) then
      some (sb.1 * ((natOfDigits ip : ℚ) + (natOfDigits fp : ℚ) / 10 ^ fp.length))
    else none
  | _ => none

/-- Python truthiness test on an optional number: `not self.min[i]` is
true when the entry is `None` and also when it is `0`. -/
def pyFalsy : Option ℚ → Bool
  | none => true
  | some q => q = 0

/-- State of the statistics loop in `ThreeDee.__init__`: running
`average` sums and the `min` / `max` lists (entries start as `None`). -/
abbrev StatsSt := List ℚ × List (Option ℚ) × List (Option ℚ)

/-- One iteration of the inner `for i in range(3)` loop of
`ThreeDee.__init__`: `num = vector[i]` (an `IndexError` when the tuple
is shorter), `average[i] += num`, then the `if not self.min[i]` branch
that (re)initialises `min[i]` and `max[i]`, else the two comparisons. -/
def axisUpdate (st : StatsSt) (vec : Vec) (i : Nat) : Except PErr StatsSt :=
  match vec[i]? with
  | none => .error .indexError
  | some num =>
    let avg := st.1.set i (st.1.getD i 0 + num)
    let mn := st.2.1
    let mx := st.2.2
    if pyFalsy (mn.getD i none) then
      .ok (avg, mn.set i (some num), mx.set i (some num))
    else
      .ok (avg,
        (if num < (mn.getD i none).getD 0 then mn.set i (some num) else mn),
        (if (mx.getD i none).getD 0 < num then mx.set i (some num) else mx))

/-- The body of the outer `for vector in self.verts` loop: the inner
loop unrolled over `i = 0, 1, 2`. -/
def vecUpdate (st : StatsSt) (vec : Vec) : Except PErr StatsSt := do
  let st ← axisUpdate st vec 0
  let st ← axisUpdate st vec 1
  axisUpdate st vec 2

/-- `ThreeDee.__init__` after `self.load` has filled `self.verts`:
raise `ThreeDeeParseError("Empyt model.")` on an empty vertex list,
otherwise run the statistics loop, divide the sums by the vertex count,
and set `width`/`depth`/`height` from `min` and `max`. -/
def computeStats (verts : List Vec) : Except PErr ThreeDee :=
  if verts.length = 0 then .error (.threeDee "Empyt model.")
  else do
    let st ← verts.foldlM vecUpdate ([0, 0, 0], [none, none, none], [none, none, none])
    let n : ℚ := verts.length
    let avg := st.1.map (fun a => a / n)
    let mn := fun i => ((st.2.1.getD i none).getD 0)
    let mx := fun i => ((st.2.2.getD i none).getD 0)
    .ok { verts := verts
        , min := [mn 0, mn 1, mn 2]
        , max := [mx 0, mx 1, mx 2]
        , average := avg
        , width := |mn 0 - mx 0|
        , depth := |mn 1 - mx 1|
        , height := |mn 2 - mx 2| }

/-- Python's `str.strip()`: drop whitespace from both ends. -/
def pyStrip (s : String) : String :=
  String.mk (((s.data.dropWhile Char.isWhitespace).reverse.dropWhile Char.isWhitespace).reverse)

/-- Helper for `pySplitSpace`, accumulating the current token reversed. -/
def splitSpaceAux : List Char → List Char → List String
  | [], acc => [String.mk acc.reverse]
  | c :: cs, acc =>
    if c = ' ' then String.mk acc.reverse :: splitSpaceAux cs []
    else splitSpaceAux cs (c :: acc)

/-- Python's `str.split(" ")`: split on every single space, keeping
empty tokens (`"a  b".split(" ") == ["a", "", "b"]`). -/
def pySplitSpace (s : String) : List String := splitSpaceAux s.data []

/-- `ObjModel.__vector`: strip the line, split on single spaces, drop
the marker token, map `float` over the rest (a `ValueError` when any
token fails), and keep the first three numbers. -/
def objVector (line : String) : Except PErr Vec :=
  match ((pySplitSpace (pyStrip line)).drop 1).mapM pyFloat with
  | none => .error .valueError
  | some nums => .ok (nums.take 3)

/-- The body of `ObjModel.load`'s `for line in fileob` loop:
`line[0] == "v"` decides whether the line is appended as a vertex
(`line[0]` on an empty string would be an `IndexError`). -/
def objLine (verts : List Vec) (line : String) : Except PErr (List Vec) :=
  match line.data.head? with
  | none => .error .indexError
  | some c =>
    if c = 'v' then
      match objVector line with
      | .error e => .error e
      | .ok v => .ok (verts ++ [v])
    else .ok verts

/-- `ObjModel.load` over an already-split line list. -/
def objLoadLines (lines : List String) : Except PErr (List Vec) :=
  lines.foldlM objLine []

/-- `ObjModel(fileob)` over an already-split line list: load, then the
`ThreeDee.__init__` statistics step. -/
def objModelLines (lines : List String) : Except PErr ThreeDee :=
  (objLoadLines lines).bind computeStats

/-- Split the bytes remaining in a file into Python-iteration lines:
each line keeps its trailing newline byte, and a final partial line
without a newline is still yielded. -/
def splitLinesAux : List Nat → List Nat → List (List Nat)
  | [], acc => if acc.isEmpty then [] else [acc.reverse]
  | b :: rest, acc =>
    if b = 10 then (acc.reverse ++ [10]) :: splitLinesAux rest []
    else splitLinesAux rest (b :: acc)

/-- Lines of a byte sequence, as Python file iteration yields them. -/
def splitLines (bs : List Nat) : List (List Nat) := splitLinesAux bs []

/-- A line of bytes as the string Python 2 hands to `ObjModel.load`. -/
def lineToString (bs : List Nat) : String := String.mk (bs.map Char.ofNat)

/-- `ObjModel(fileob)`: iterate the lines remaining after the current
position; iteration leaves the position at end of file. -/
def objParse (f : FileOb) : Except PErr ThreeDee × FileOb :=
  ((objLoadLines ((splitLines (f.data.drop f.pos)).map lineToString)).bind computeStats,
    { f with pos := f.data.length })

/-- `fileob.read(n)` followed by `struct.unpack`: a short read (fewer
than `n` bytes remaining) makes `struct.unpack` raise `struct.error`. -/
def readField (f : FileOb) (n : Nat) : Except PErr (List Nat × FileOb) :=
  let bs := (f.data.drop f.pos).take n
  if bs.length = n then .ok (bs, { f with pos := f.pos + n })
  else .error .structError

/-- Little-endian unsigned value of a byte list. -/
def leUint (bs : List Nat) : Nat := bs.foldr (fun b acc => b % 256 + 256 * acc) 0

/-- Little-endian 32-bit signed value of a 4-byte list, as
`struct.unpack("<i", _)` computes it. -/
def leSint32 (bs : List Nat) : Int :=
  let u := leUint bs
  if u < 2 ^ 31 then (u : Int) else (u : Int) - 2 ^ 32

/-- `BinaryStlModel.__num(fileob, "uint")`: `struct.unpack("<I", fileob.read(4))`. -/
def readUint32 (f : FileOb) : Except PErr (Nat × FileOb) :=
  (readField f 4).map (fun p => (leUint p.1, p.2))

/-- `BinaryStlModel.__num(fileob, "real")`: the source unpacks the
4-byte field with `"<i"`, a little-endian SIGNED INTEGER, and returns
that integer as the coordinate value. -/
def readSint32 (f : FileOb) : Except PErr (Int × FileOb) :=
  (readField f 4).map (fun p => (leSint32 p.1, p.2))

/-- `BinaryStlModel.__num(fileob, "short")`: `struct.unpack("<H", fileob.read(2))`. -/
def readUint16 (f : FileOb) : Except PErr (Nat × FileOb) :=
  (readField f 2).map (fun p => (leUint p.1, p.2))

/-- `BinaryStlModel.__vector`: three consecutive `"real"` fields. -/
def stlVector (f : FileOb) : Except PErr (Vec × FileOb) := do
  let (a, f) ← readSint32 f
  let (b, f) ← readSint32 f
  let (c, f) ← readSint32 f
  .ok ([(a : ℚ), (b : ℚ), (c : ℚ)], f)

/-- The `for i in range(triangle_count)` loop of `BinaryStlModel.load`:
per triangle, one discarded normal vector, three vertices appended, and
one discarded 16-bit attribute count. -/
def stlTriangles : Nat → FileOb → List Vec → Except PErr (List Vec × FileOb)
  | 0, f, verts => .ok (verts, f)
  | n + 1, f, verts => do
    let (_, f) ← stlVector f
    let (v1, f) ← stlVector f
    let (v2, f) ← stlVector f
    let (v3, f) ← stlVector f
    let (_, f) ← readUint16 f
    stlTriangles n f (verts ++ [v1, v2, v3])

/-- `BinaryStlModel.load`: `fileob.seek(80)` (absolute), read the
triangle count, then the triangle loop. -/
def stlLoad (f : FileOb) : Except PErr (List Vec × FileOb) := do
  let (count, f) ← readUint32 { f with pos := 80 }
  stlTriangles count f []

/-- `BinaryStlModel(fileob)`: load, then the `ThreeDee.__init__`
statistics step.  The file state is only observable when the raised
error is caught, which happens exactly on the empty-model path. -/
def stlParse (f : FileOb) : Except PErr ThreeDee × FileOb :=
  match stlLoad f with
  | .error e => (.error e, f)
  | .ok (verts, f') => (computeStats verts, f')

/-- Which errors the first two `except ThreeDeeParseError` clauses of
`auto_detect` catch. -/
def caught : PErr → Bool
  | .threeDee _ => true
  | _ => false

/-- Which errors the binary-STL attempt's `except` clauses catch
(`ThreeDeeParseError` and `MemoryError`). -/
def caughtBin : PErr → Bool
  | .threeDee _ => true
  | .memoryError => true
  | _ => false

/-- `not hint` in Python: the hint is `None` or the empty string. -/
def hintFalsy : Option String → Bool
  | none => true
  | some s => s = ""

/-- The `hint == "stl" or not hint` branch of `auto_detect`: the ASCII
attempt (the same `ObjModel` parser) followed by the binary attempt,
each reading the stream wherever the previous attempt left it (the
binary loader seeks to absolute position 80 itself).  Alongside the
result, the start position of each attempt is recorded. -/
def stlBranch (f : FileOb) (tr : List Nat) : Except PErr ThreeDee × List Nat :=
  match (objParse f).1 with
  | .ok m => (.ok m, tr ++ [f.pos])
  | .error e2 =>
    if caught e2 then
      match (stlParse (objParse f).2).1 with
      | .ok m => (.ok m, tr ++ [f.pos, (objParse f).2.pos])
      | .error e3 =>
        if caughtBin e3 then
          (.error (.threeDee "Could not successfully parse the model :("),
            tr ++ [f.pos, (objParse f).2.pos])
        else (.error e3, tr ++ [f.pos, (objParse f).2.pos])
    else (.error e2, tr ++ [f.pos])

/-- `auto_detect(fileob, hint)`, instrumented with the list of stream
positions at which each candidate attempt begins reading. -/
def autoDetectT (f : FileOb) (hint : Option String) : Except PErr ThreeDee × List Nat :=
  if hint = some "obj" ∨ hintFalsy hint then
    match (objParse f).1 with
    | .ok m => (.ok m, [f.pos])
    | .error e1 =>
      if caught e1 then
        if hint = some "stl" ∨ hintFalsy hint then stlBranch (objParse f).2 [f.pos]
        else (.error (.threeDee "Could not successfully parse the model :("), [f.pos])
      else (.error e1, [f.pos])
  else
    if hint = some "stl" ∨ hintFalsy hint then stlBranch f []
    else (.error (.threeDee "Could not successfully parse the model :("), [])

/-- `auto_detect(fileob, hint)`: the returned model or raised error. -/
def auto_detect (f : FileOb) (hint : Option String) : Except PErr ThreeDee :=
  (autoDetectT f hint).1

/-- The IEEE-754 binary32 value of a 32-bit pattern, as an exact
rational.  This is the decoding the spec prescribes for the fields
tagged "real" (finite patterns only; exponent-255 patterns do not occur
in the inputs considered here). -/
def ieee754Binary32 (u : Nat) : ℚ :=
  let s : ℚ := if u / 2 ^ 31 % 2 = 1 then -1 else 1
  let e : Nat := u / 2 ^ 23 % 2 ^ 8
  let m : Nat := u % 2 ^ 23
  if e = 0 then s * (m : ℚ) / 2 ^ 149
  else s * (((2 ^ 23 + m : Nat) : ℚ) * 2 ^ e) / 2 ^ 150

/-- C1: false of the code.  On the vertex sequence [(0,0,0),(5,5,5)]
(OBJ text "v 0 0 0\nv 5 5 5\n"), `min` comes out as (5,5,5) — not the
coordinate-wise minimum (0,0,0) — and `min[i] <= average[i]` fails,
because `if not self.min[i]` treats a running minimum of 0 as unset and
resets both `min[i]` and `max[i]` to the next coordinate. -/
theorem c1_min_average_zero_code_bug :
    objModelLines ["v 0 0 0\n", "v 5 5 5\n"] =
      .ok { verts := [[0, 0, 0], [5, 5, 5]], min := [5, 5, 5], max := [5, 5, 5],
            average := [5 / 2, 5 / 2, 5 / 2], width := 0, depth := 0, height := 0 }
    ∧ ¬ ((5 : ℚ) ≤ 5 / 2) := by decide

/-- C2: false of the code.  The 4-byte field 00 00 80 3F, whose
IEEE-754 binary32 value is 1, is decoded by `__num(fileob, "real")` as
the little-endian signed integer 1065353216 (`struct.unpack("<i", _)`),
which differs from the IEEE-754 interpretation. -/
theorem c2_real_field_signed_int_code_bug :
    readSint32 ⟨[0, 0, 128, 63], 0⟩ = .ok (1065353216, ⟨[0, 0, 128, 63], 4⟩)
    ∧ ieee754Binary32 (leUint [0, 0, 128, 63]) = 1
    ∧ ((1065353216 : ℚ) ≠ 1) := by decide

/-- C3, counterexample: false of the code.  `auto_detect` never rewinds
the stream.  On the two-byte stream "x\n" with no hint, the first (OBJ)
candidate fails after consuming the whole stream, and the second
(ASCII-STL) candidate starts reading at position 2 — the end of the
stream — not at position 0. -/
theorem c3_no_rewind_cex :
    (autoDetectT ⟨[120, 10], 0⟩ none).2 = [0, 2, 2] ∧ (2 : Nat) ≠ 0 := by decide

/-- C4, counterexample: false of the code.  On the stream "v x\n" with
no hint, the OBJ candidate raises `ValueError` (the token "x" fails to
parse as a float); `auto_detect` catches only `ThreeDeeParseError`
there, so this malformed-data error surfaces to the caller instead of
causing fallthrough to the next candidate. -/
theorem c4_value_error_surfaces_cex :
    auto_detect ⟨[118, 32, 120, 10], 0⟩ none = .error .valueError
    ∧ caught .valueError = false := by decide

/-- C5, counterexample: false of the code.  An 80-byte header followed
by triangle count 1 and no triangle data makes `BinaryStlModel.load`
fail with `struct.error` (a short `fileob.read`), which is not the
library's typed `ThreeDeeParseError`; no `TruncatedInputError` exists
in the module. -/
theorem c5_truncated_struct_error_cex :
    (stlParse ⟨List.replicate 80 0 ++ [1, 0, 0, 0], 0⟩).1 = .error .structError
    ∧ caught .structError = false := by decide

/-- C6, counterexample: false of the code.  The line "v 1 2" makes
`ObjModel.load` silently append the short vertex (1, 2); constructing
the model then fails with an untyped `IndexError` in the statistics
loop of `ThreeDee.__init__`, not with a typed malformed-record error. -/
theorem c6_short_vertex_index_error_cex :
    objModelLines ["v 1 2\n"] = .error .indexError
    ∧ objLoadLines ["v 1 2\n"] = .ok [[1, 2]]
    ∧ caught .indexError = false := by decide

/-- C7, counterexample: false of the code.  A normal line "vn 1 2 3" is
NOT skipped: `line[0] == "v"` is true for it, so it contributes the
vertex (1, 2, 3) to the parsed sequence. -/
theorem c7_vn_line_contributes_cex :
    (objModelLines ["vn 1 2 3\n"]).map ThreeDee.verts = .ok [[1, 2, 3]]
    ∧ ([[1, 2, 3]] : List Vec) ≠ [] := by decide

/-- C9: confirmed.  Parsing the OBJ text "v 1 2 3\nv 4 5 6\n" (as the
byte stream handed to `ObjModel`) succeeds with vertices
[(1,2,3), (4,5,6)] in order, min (1,2,3), max (4,5,6), average
(5/2, 7/2, 9/2) and width, depth, height all equal to 3. -/
theorem c9_obj_roundtrip :
    (objParse ⟨[118, 32, 49, 32, 50, 32, 51, 10, 118, 32, 52, 32, 53, 32, 54, 10], 0⟩).1 =
      .ok { verts := [[1, 2, 3], [4, 5, 6]], min := [1, 2, 3], max := [4, 5, 6],
            average := [5 / 2, 7 / 2, 9 / 2], width := 3, depth := 3, height := 3 } := by
  decide

/-- C10: confirmed.  For any stream and any truthy hint other than
"obj" and "stl" (e.g. "ply"), `auto_detect` raises the final
`ThreeDeeParseError` immediately: the attempt trace is empty, so no
candidate parser is invoked and the stream is never read or seeked. -/
theorem c10_unknown_hint_immediate_error :
    ∀ (f : FileOb) (s : String), s ≠ "obj" → s ≠ "stl" → s ≠ "" →
      autoDetectT f (some s) =
        (.error (.threeDee "Could not successfully parse the model :("), []) := by
  intro f s h1 h2 h3
  simp [autoDetectT, hintFalsy, h1, h2, h3]

/-- Witness for `c10_unknown_hint_immediate_error` at hint "ply". -/
theorem c10_unknown_hint_witness :
    autoDetectT ⟨[], 0⟩ (some "ply") =
      (.error (.threeDee "Could not successfully parse the model :("), []) :=
  c10_unknown_hint_immediate_error ⟨[], 0⟩ "ply" (by decide) (by decide) (by decide)

/-- C4 (amended): whenever an attempted OBJ candidate fails with an
error that is not the module's `ThreeDeeParseError` — e.g. `ValueError`
from a numeric token that fails to parse — `auto_detect` propagates
that error to its caller instead of falling through to the next
candidate; only `ThreeDeeParseError` (and, in the binary attempt,
`MemoryError`) cause fallthrough. -/
theorem c4_uncaught_error_propagation :
    ∀ (f : FileOb) (hint : Option String) (e : PErr),
      (hint = some "obj" ∨ hintFalsy hint) → (objParse f).1 = .error e →
      caught e = false → auto_detect f hint = .error e := by
  intro f hint e hh hp hc
  simp only [auto_detect, autoDetectT]
  rw [if_pos hh, hp]
  simp [hc]

/-- Witness for `c4_uncaught_error_propagation` on the stream "v x\n"
with no hint. -/
theorem c4_uncaught_error_propagation_witness :
    (objParse ⟨[118, 32, 120, 10], 0⟩).1 = .error .valueError
    ∧ auto_detect ⟨[118, 32, 120, 10], 0⟩ none = .error .valueError :=
  ⟨by decide, c4_uncaught_error_propagation ⟨[118, 32, 120, 10], 0⟩ none .valueError
    (by decide) (by decide) (by decide)⟩

/-- A line whose first character is not `v` is skipped by
`ObjModel.load`: it contributes nothing to the vertex list. -/
theorem objLine_skip (verts : List Vec) (l : String)
    (h1 : l.data.head? ≠ some 'v') (h2 : l.data ≠ []) :
    objLine verts l = .ok verts := by
  unfold objLine
  cases hd : l.data with
  | nil => exact absurd hd h2
  | cons c cs =>
    rw [hd] at h1
    have hc : c ≠ 'v' := by simpa using h1
    simp [hd, hc]

/-- C7 (amended): the source's vertex-record test is only
`line[0] == "v"`.  Lines whose first character is not `v` (comments,
faces, groups) are skipped and contribute no vertex, but any line whose
first character IS `v` — including normal lines `vn ...` and texture
lines `vt ...` — is treated as a vertex record and contributes a
vertex. -/
theorem c7_first_char_v_amended :
    (∀ (verts : List Vec) (l : String), l.data.head? ≠ some 'v' → l.data ≠ [] →
        objLine verts l = .ok verts)
    ∧ objLine [] "vn 1 2 3\n" = .ok [[1, 2, 3]]
    ∧ objLine [] "vt 7 8 9\n" = .ok [[7, 8, 9]] :=
  ⟨objLine_skip, by decide, by decide⟩

/-- Witness for `c7_first_char_v_amended` on a face line. -/
theorem c7_first_char_v_amended_witness :
    objLine [[9, 9, 9]] "f 1 2\n" = .ok [[9, 9, 9]] :=
  c7_first_char_v_amended.1 [[9, 9, 9]] "f 1 2\n" (by decide) (by decide)

/-- `ObjModel.load` over lines that are all skipped leaves the vertex
accumulator unchanged. -/
theorem objFold_skip (lines : List String) (verts : List Vec)
    (h : ∀ l ∈ lines, l.data.head? ≠ some 'v' ∧ l.data ≠ []) :
    lines.foldlM objLine verts = .ok verts := by
  induction lines generalizing verts with
  | nil => rfl
  | cons l ls ih =>
    have hl := h l (by simp)
    have hls : ∀ x ∈ ls, x.data.head? ≠ some 'v' ∧ x.data ≠ [] :=
      fun x hx => h x (by simp [hx])
    simp only [List.foldlM, objLine_skip verts l hl.1 hl.2]
    exact ih verts hls

/-- Python file iteration never yields an empty line. -/
theorem splitLinesAux_ne_nil (bs : List Nat) :
    ∀ (acc : List Nat), ∀ l ∈ splitLinesAux bs acc, l ≠ [] := by
  induction bs with
  | nil =>
    intro acc l hl
    unfold splitLinesAux at hl
    split at hl
    · simp at hl
    · rename_i hne
      simp only [List.mem_singleton] at hl
      subst hl
      simp only [List.isEmpty_iff] at hne
      simpa using hne
  | cons b rest ih =>
    intro acc l hl
    unfold splitLinesAux at hl
    split at hl
    · rcases List.mem_cons.mp hl with hl | hl
      · subst hl; simp
      · exact ih [] l hl
    · exact ih (b :: acc) l hl

/-- C8: confirmed.  A syntactically complete parse that yields zero
vertices raises `ThreeDeeParseError("Empyt model.")` (the module's
empty-model error) before any model is constructed: an OBJ stream none
of whose lines starts with `v`, and a binary STL stream whose declared
triangle count is 0, both fail this way. -/
theorem c8_empty_model_error :
    (∀ f : FileOb, (∀ l ∈ (splitLines (f.data.drop f.pos)).map lineToString,
        l.data.head? ≠ some 'v') → (objParse f).1 = .error (.threeDee "Empyt model."))
    ∧ (∀ f : FileOb, (f.data.drop 80).take 4 = [0, 0, 0, 0] →
        (stlParse f).1 = .error (.threeDee "Empyt model.")) := by
  constructor
  · intro f h
    have hload : objLoadLines ((splitLines (f.data.drop f.pos)).map lineToString) = .ok [] := by
      apply objFold_skip
      intro l hl
      refine ⟨h l hl, ?_⟩
      obtain ⟨bs, hbs, rfl⟩ := List.mem_map.mp hl
      have hne : bs ≠ [] := splitLinesAux_ne_nil _ _ bs hbs
      simp [lineToString, hne]
    show (objLoadLines _).bind computeStats = _
    rw [hload]
    rfl
  · intro f h
    have h4 : ((f.data.drop 80).take 4).length = 4 := by rw [h]; rfl
    have hread : readField ⟨f.data, 80⟩ 4 = .ok ([0, 0, 0, 0], ⟨f.data, 84⟩) := by
      simp [readField, h4, h]
    have hload : stlLoad f = .ok ([], ⟨f.data, 84⟩) := by
      simp only [stlLoad, readUint32]
      rw [hread]
      rfl
    simp only [stlParse]
    rw [hload]
    rfl

/-- Witness for `c8_empty_model_error`: the OBJ stream "x\n" and a
binary STL stream of 84 zero bytes (triangle count 0). -/
theorem c8_empty_model_error_witness :
    (objParse ⟨[120, 10], 0⟩).1 = .error (.threeDee "Empyt model.")
    ∧ (stlParse ⟨List.replicate 84 0, 0⟩).1 = .error (.threeDee "Empyt model.") :=
  ⟨c8_empty_model_error.1 ⟨[120, 10], 0⟩ (by decide),
   c8_empty_model_error.2 ⟨List.replicate 84 0, 0⟩ (by decide)⟩

/-- C6 (amended): a `v` line carrying fewer than three numeric tokens
does not raise a typed malformed-record error (none exists in the
module): `ObjModel.load` silently appends the short vertex tuple, and
model construction then fails with an untyped `IndexError` when the
statistics loop of `ThreeDee.__init__` indexes the missing component.
Tokens beyond the first three are still ignored. -/
theorem c6_short_vertex_amended :
    (∀ (line : String) (a b : ℚ), line.data.head? = some 'v' →
        ((pySplitSpace (pyStrip line)).drop 1).mapM pyFloat = some [a, b] →
        objModelLines [line] = .error .indexError)
    ∧ objLine [] "v 1 2 3 4\n" = .ok [[1, 2, 3]] := by
  refine ⟨?_, by decide⟩
  intro line a b h1 h2
  have hvec : objVector line = .ok [a, b] := by
    simp only [objVector]
    rw [h2]
    rfl
  have hload : objLoadLines [line] = .ok [[a, b]] := by
    simp [objLoadLines, List.foldlM, objLine, h1, hvec]
  have hstats : computeStats [[a, b]] = .error .indexError := rfl
  simp only [objModelLines]
  rw [hload]
  exact hstats

/-- Witness for `c6_short_vertex_amended` on the line "v 1 2\n". -/
theorem c6_short_vertex_amended_witness :
    ("v 1 2\n").data.head? = some 'v'
    ∧ objModelLines ["v 1 2\n"] = .error .indexError :=
  ⟨by decide, c6_short_vertex_amended.1 "v 1 2\n" 1 2 (by decide) (by decide)⟩

/-- The ASCII and binary attempts of the `stl` branch record their
start positions right after the position already in the trace. -/
theorem stlBranch_trace (f : FileOb) (tr : List Nat) :
    ∃ rest, (stlBranch f tr).2 = tr ++ f.pos :: rest := by
  unfold stlBranch
  cases hp : (objParse f).1 with
  | ok m => exact ⟨[], rfl⟩
  | error e2 =>
    by_cases hc : caught e2 = true
    · cases hs : (stlParse (objParse f).2).1 with
      | ok m => exact ⟨[(objParse f).2.pos], by simp [hc]⟩
      | error e3 =>
        by_cases hb : caughtBin e3 = true
        · exact ⟨[(objParse f).2.pos], by simp [hc, hb]⟩
        · exact ⟨[(objParse f).2.pos], by simp [hc, hb]⟩
    · exact ⟨[], by simp [hc]⟩

/-- C3 (amended): `auto_detect` performs no rewind between candidates.
With no hint, after the OBJ candidate fails (with the module's caught
parse error), the next (ASCII) candidate starts reading at the position
where the OBJ attempt left the stream — the end of the data — not at
position 0.  (The binary candidate is insensitive to this only because
`BinaryStlModel.load` seeks to absolute offset 80 itself.) -/
theorem c3_no_rewind_amended :
    ∀ (f : FileOb) (m : String), (objParse f).1 = .error (.threeDee m) →
      (autoDetectT f none).2.take 2 = [f.pos, f.data.length] := by
  intro f m hp
  have h2 : (objParse f).2 = ⟨f.data, f.data.length⟩ := rfl
  obtain ⟨rest, hr⟩ := stlBranch_trace (objParse f).2 [f.pos]
  rw [h2] at hr
  dsimp only at hr
  simp only [autoDetectT, hintFalsy]
  rw [hp]
  simp [caught, h2, hr]

/-- Witness for `c3_no_rewind_amended` on the stream "x\n": the second
candidate starts at position 2 (end of stream), not 0. -/
theorem c3_no_rewind_amended_witness :
    (objParse ⟨[120, 10], 0⟩).1 = .error (.threeDee "Empyt model.")
    ∧ (autoDetectT ⟨[120, 10], 0⟩ none).2.take 2 = [0, 2] :=
  ⟨by decide, c3_no_rewind_amended ⟨[120, 10], 0⟩ "Empyt model." (by decide)⟩

/-- Bind on `Except` with an ok value reduces to the continuation. -/
theorem exceptBindOk {α β : Type} (a : α) (g : α → Except PErr β) :
    (Except.ok (ε := PErr) a >>= g) = g a := rfl

/-- Bind on `Except` with an error short-circuits. -/
theorem exceptBindErr {α β : Type} (e : PErr) (g : α → Except PErr β) :
    (Except.error (α := α) e >>= g) = Except.error e := rfl

/-- A field read that would pass the end of the data fails with
`struct.error`, as `struct.unpack` rejects the short buffer. -/
theorem readField_err (f : FileOb) (n : Nat) (h0 : 0 < n)
    (h : f.data.length < f.pos + n) : readField f n = .error .structError := by
  have hlen : ¬ ((f.data.drop f.pos).take n).length = n := by
    simp only [List.length_take, List.length_drop]
    omega
  simp only [readField]
  rw [if_neg hlen]

/-- A field read that fits in the remaining data succeeds and advances
the position by the field width. -/
theorem readField_ok (f : FileOb) (n : Nat) (h : f.pos + n ≤ f.data.length) :
    readField f n = .ok ((f.data.drop f.pos).take n, ⟨f.data, f.pos + n⟩) := by
  have hlen : ((f.data.drop f.pos).take n).length = n := by
    simp only [List.length_take, List.length_drop]
    omega
  simp only [readField]
  rw [if_pos hlen]

/-- `__num(fileob, "real")` succeeds when 4 bytes remain. -/
theorem readSint32_ok (f : FileOb) (h : f.pos + 4 ≤ f.data.length) :
    readSint32 f = .ok (leSint32 ((f.data.drop f.pos).take 4), ⟨f.data, f.pos + 4⟩) := by
  simp only [readSint32]
  rw [readField_ok f 4 h]
  rfl

/-- `__num(fileob, "real")` fails with `struct.error` when fewer than 4
bytes remain. -/
theorem readSint32_err (f : FileOb) (h : f.data.length < f.pos + 4) :
    readSint32 f = .error .structError := by
  simp only [readSint32]
  rw [readField_err f 4 (by omega) h]
  rfl

/-- `__num(fileob, "short")` succeeds when 2 bytes remain. -/
theorem readUint16_ok (f : FileOb) (h : f.pos + 2 ≤ f.data.length) :
    readUint16 f = .ok (leUint ((f.data.drop f.pos).take 2), ⟨f.data, f.pos + 2⟩) := by
  simp only [readUint16]
  rw [readField_ok f 2 h]
  rfl

/-- `__num(fileob, "short")` fails with `struct.error` when fewer than
2 bytes remain. -/
theorem readUint16_err (f : FileOb) (h : f.data.length < f.pos + 2) :
    readUint16 f = .error .structError := by
  simp only [readUint16]
  rw [readField_err f 2 (by omega) h]
  rfl

/-- `BinaryStlModel.__vector` succeeds when 12 bytes remain, advancing
the position by 12. -/
theorem stlVector_ok (f : FileOb) (h : f.pos + 12 ≤ f.data.length) :
    stlVector f = .ok ([(leSint32 ((f.data.drop f.pos).take 4) : ℚ),
      (leSint32 ((f.data.drop (f.pos + 4)).take 4) : ℚ),
      (leSint32 ((f.data.drop (f.pos + 4 + 4)).take 4) : ℚ)], ⟨f.data, f.pos + 12⟩) := by
  have e1 := readSint32_ok f (by omega)
  have e2 := readSint32_ok ⟨f.data, f.pos + 4⟩ (show f.pos + 4 + 4 ≤ f.data.length by omega)
  have e3 := readSint32_ok ⟨f.data, f.pos + 4 + 4⟩
    (show f.pos + 4 + 4 + 4 ≤ f.data.length by omega)
  dsimp only at e2 e3
  have e12 : f.pos + 4 + 4 + 4 = f.pos + 12 := by omega
  simp only [stlVector, e1, exceptBindOk, e2, e3, e12]

/-- `BinaryStlModel.__vector` fails with `struct.error` when fewer than
12 bytes remain. -/
theorem stlVector_err (f : FileOb) (h : f.data.length < f.pos + 12) :
    stlVector f = .error .structError := by
  rcases lt_or_le f.data.length (f.pos + 4) with g1 | g1
  · simp only [stlVector]
    rw [readSint32_err f (by omega)]
    rfl
  · rcases lt_or_le f.data.length (f.pos + 4 + 4) with g2 | g2
    · have e1 := readSint32_ok f (by omega)
      have e2 := readSint32_err ⟨f.data, f.pos + 4⟩
        (show f.data.length < f.pos + 4 + 4 by omega)
      simp only [stlVector, e1, exceptBindOk, e2, exceptBindErr]
    · have e1 := readSint32_ok f (by omega)
      have e2 := readSint32_ok ⟨f.data, f.pos + 4⟩ (show f.pos + 4 + 4 ≤ f.data.length by omega)
      have e3 := readSint32_err ⟨f.data, f.pos + 4 + 4⟩
        (show f.data.length < f.pos + 4 + 4 + 4 by omega)
      dsimp only at e2 e3
      simp only [stlVector, e1, exceptBindOk, e2, e3, exceptBindErr]

/-- The triangle loop of `BinaryStlModel.load` fails with
`struct.error` whenever the remaining data is shorter than the 50 bytes
per declared triangle it still has to read. -/
theorem stlTriangles_err (n : Nat) : ∀ (f : FileOb) (vs : List Vec), 0 < n →
    f.data.length < f.pos + 50 * n → stlTriangles n f vs = .error .structError := by
  induction n with
  | zero => intro f vs h _; exact absurd h (by omega)
  | succ k ih =>
    intro f vs _ hlen
    rcases lt_or_le f.data.length (f.pos + 12) with g1 | g1
    · simp only [stlTriangles, stlVector_err f (by omega), exceptBindErr]
    · have e0 := stlVector_ok f (by omega)
      rcases lt_or_le f.data.length (f.pos + 12 + 12) with g2 | g2
      · have e1 := stlVector_err ⟨f.data, f.pos + 12⟩
          (show f.data.length < f.pos + 12 + 12 by omega)
        simp only [stlTriangles, e0, e1, exceptBindOk, exceptBindErr]
      · have e1 := stlVector_ok ⟨f.data, f.pos + 12⟩
          (show f.pos + 12 + 12 ≤ f.data.length by omega)
        dsimp only at e1
        rcases lt_or_le f.data.length (f.pos + 12 + 12 + 12) with g3 | g3
        · have e2 := stlVector_err ⟨f.data, f.pos + 12 + 12⟩
            (show f.data.length < f.pos + 12 + 12 + 12 by omega)
          simp only [stlTriangles, e0, e1, e2, exceptBindOk, exceptBindErr]
        · have e2 := stlVector_ok ⟨f.data, f.pos + 12 + 12⟩
            (show f.pos + 12 + 12 + 12 ≤ f.data.length by omega)
          dsimp only at e2
          rcases lt_or_le f.data.length (f.pos + 12 + 12 + 12 + 12) with g4 | g4
          · have e3 := stlVector_err ⟨f.data, f.pos + 12 + 12 + 12⟩
              (show f.data.length < f.pos + 12 + 12 + 12 + 12 by omega)
            simp only [stlTriangles, e0, e1, e2, e3, exceptBindOk, exceptBindErr]
          · have e3 := stlVector_ok ⟨f.data, f.pos + 12 + 12 + 12⟩
              (show f.pos + 12 + 12 + 12 + 12 ≤ f.data.length by omega)
            dsimp only at e3
            rcases lt_or_le f.data.length (f.pos + 12 + 12 + 12 + 12 + 2) with g5 | g5
            · have e4 := readUint16_err ⟨f.data, f.pos + 12 + 12 + 12 + 12⟩
                (show f.data.length < f.pos + 12 + 12 + 12 + 12 + 2 by omega)
              simp only [stlTriangles, e0, e1, e2, e3, e4, exceptBindOk, exceptBindErr]
            · have e4 := readUint16_ok ⟨f.data, f.pos + 12 + 12 + 12 + 12⟩
                (show f.pos + 12 + 12 + 12 + 12 + 2 ≤ f.data.length by omega)
              dsimp only at e4
              have e50 : f.pos + 12 + 12 + 12 + 12 + 2 = f.pos + 50 := by omega
              have hk : 0 < k := by omega
              simp only [stlTriangles, e0, e1, e2, e3, e4, e50, exceptBindOk]
              exact ih _ _ hk (show f.data.length < f.pos + 50 + 50 * k by omega)

/-- C5 (amended): a binary STL stream whose declared triangle count
requires more bytes than remain fails when a field read comes up short
— but with the untyped `struct.error` from `struct.unpack`, not with a
typed library error (no `TruncatedInputError` exists in the module, and
`struct.error` is not its `ThreeDeeParseError`).  No read goes out of
bounds: `fileob.read` returns only the bytes that exist. -/
theorem c5_truncation_struct_error :
    ∀ (f : FileOb) (c : Nat), 84 ≤ f.data.length →
      leUint ((f.data.drop 80).take 4) = c → 0 < c →
      f.data.length < 84 + 50 * c → (stlParse f).1 = .error .structError := by
  intro f c hlen hc hcpos hsmall
  have hread := readField_ok ⟨f.data, 80⟩ 4 (show 80 + 4 ≤ f.data.length by omega)
  dsimp only at hread
  rw [show (80 : Nat) + 4 = 84 from rfl] at hread
  have htr := stlTriangles_err c ⟨f.data, 84⟩ [] hcpos
    (show f.data.length < 84 + 50 * c by omega)
  have hload : stlLoad f = .error .structError := by
    simp only [stlLoad, readUint32]
    rw [hread]
    simp only [Except.map, exceptBindOk]
    rw [hc]
    exact htr
  simp only [stlParse]
  rw [hload]

/-- Witness for `c5_truncation_struct_error`: 80 zero header bytes plus
triangle count 1 and no triangle data. -/
theorem c5_truncation_struct_error_witness :
    leUint ((((List.replicate 80 0 ++ [1, 0, 0, 0] : List Nat)).drop 80).take 4) = 1
    ∧ (stlParse ⟨List.replicate 80 0 ++ [1, 0, 0, 0], 0⟩).1 = .error .structError :=
  ⟨by decide,
    c5_truncation_struct_error ⟨List.replicate 80 0 ++ [1, 0, 0, 0], 0⟩ 1
      (by decide) (by decide) (by decide) (by decide)⟩
